import Mathlib

set_option maxRecDepth 4000

/-!
Shallow embedding of the authentication subsystem of the repository
(user database `src/lib/db.js`, the login API routes, the `/api/auth/me`
route, and the client auth facade).  JavaScript strings are Lean
`String`s, JavaScript numbers used as 32-bit integers are `Int` with
explicit wrap-around, absent object fields are `Option`, thrown and
caught exceptions are `Except`/`Option`, and the module-level mutable
state of `db.js` (storage cell, read cache, cache timestamp) is an
explicit `DbState` threaded through every operation.
-/

namespace Aifix

/-! ## JavaScript string primitives (trim, toLowerCase) restricted to the
ASCII range the code actually handles. -/

/-- Whitespace test used by JavaScript `String.prototype.trim` on the
ASCII characters occurring in this code base. -/
def jsIsWs (c : Char) : Bool :=
  c = ' ' || c = '\t' || c = '\n' || c = '\r'

/-- Lowercasing of a single character as JavaScript `toLowerCase` acts on
ASCII input (the only input the email regex admits). -/
def jsLowerChar (c : Char) : Char :=
  if 65 ≤ c.toNat ∧ c.toNat ≤ 90 then Char.ofNat (c.toNat + 32) else c

/-- JavaScript `s.toLowerCase()` on ASCII strings. -/
def jsToLower (s : String) : String :=
  String.mk (s.data.map jsLowerChar)

/-- List form of trimming: drop whitespace at both ends. -/
def jsTrimList (l : List Char) : List Char :=
  ((l.dropWhile jsIsWs).reverse.dropWhile jsIsWs).reverse

/-- JavaScript `s.trim()`. -/
def jsTrim (s : String) : String :=
  String.mk (jsTrimList s.data)

/-! ## The password hasher of `src/lib/db.js` (lines 21-44).

The JavaScript loop keeps `hash` a 32-bit signed integer by the
`hash = hash & hash` step; `hash << 5` also truncates to 32 bits.  Both
are modelled by `toInt32`. -/

/-- Truncation of an integer to a 32-bit signed value, as JavaScript
bitwise operators perform (ToInt32). -/
def toInt32 (n : Int) : Int :=
  let m := n % 4294967296
  if m < 2147483648 then m else m - 4294967296

/-- One iteration of the hashing loop:
`hash = ((hash << 5) - hash) + char; hash = hash & hash`. -/
def hashStep (h : Int) (c : Nat) : Int :=
  toInt32 (toInt32 (h * 32) - h + c)

/-- Hex digits of a natural number, least significant first. -/
def natHexDigits : Nat → List Char
  | n => (Nat.toDigits 16 n)

/-- JavaScript `n.toString(16)` for an integer `n`: minus sign followed by
the hex digits of the absolute value when negative. -/
def jsHexString (n : Int) : String :=
  if n < 0 then String.mk ('-' :: natHexDigits n.natAbs)
  else String.mk (natHexDigits n.toNat)

/-- `hashPassword` from `src/lib/db.js`: empty password maps to the empty
string; otherwise the salted password is folded through the 32-bit
checksum loop and rendered in hex.  The salt is the fixed string
`vercel-edge-runtime-salt-2025`, so the function is deterministic. -/
def hashPassword (password : String) : String :=
  if password = "" then ""
  else
    let salted := password.data ++ "vercel-edge-runtime-salt-2025".data
    jsHexString (salted.foldl (fun h c => hashStep h c.toNat) 0)

/-- `verifyPassword` from `src/lib/db.js`: rehash and compare. -/
def verifyPassword (password hashedPassword : String) : Bool :=
  hashPassword password = hashedPassword

/-! ## The second hasher variant, embedded in
`src/components/chat/ChatInterface.jsx` (lines 565-593).  It checksums
the bare password, appends a salt derived from the current year via
string concatenation (number + string in JavaScript), and hex-encodes
each character code of the resulting string. -/

/-- Decimal rendering of an integer as JavaScript `String(n)`. -/
def jsDecString (n : Int) : String :=
  if n < 0 then String.mk ('-' :: (Nat.toDigits 10 n.natAbs))
  else String.mk (Nat.toDigits 10 n.toNat)

/-- `hashPassword` from `ChatInterface.jsx`, with the year
`new Date().getFullYear()` made an explicit parameter. -/
def hashPasswordCI (year : Nat) (password : String) : String :=
  if password = "" then ""
  else
    let h := password.data.foldl (fun h c => hashStep h c.toNat) 0
    let salted := jsDecString h ++ "vercel-edge-" ++ jsDecString year
    String.mk (salted.data.foldl
      (fun acc c => acc ++ natHexDigits c.toNat) [])

/-- `verifyPassword` from `ChatInterface.jsx`. -/
def verifyPasswordCI (year : Nat) (password hashedPassword : String) : Bool :=
  hashPasswordCI year password = hashedPassword

/-! ## Data model of `src/lib/db.js`. -/

/-- One stored user record.  The `password` field holds the stored hash;
it is `none` exactly when the JavaScript object has no `password`
property (the shape `sanitizeUser` produces). -/
structure UserRec where
  id : String
  name : String
  email : String
  password : Option String
  status : String
  createdAt : String
  updatedAt : String
  lastLoginAt : Option String
  loginCount : Option Nat
  deriving DecidableEq, Repr

instance : Inhabited UserRec :=
  ⟨⟨"", "", "", none, "", "", "", none, none⟩⟩

/-- `sanitizeUser` (db.js lines 183-188): drop the `password` property. -/
def sanitizeUser (u : UserRec) : UserRec :=
  { u with password := none }

/-- Content of the backing storage cell, classified by the branches
`readDb` distinguishes.  `JSON.parse`/`JSON.stringify` of the user array
are abstracted as the identity on `List UserRec` (`validJson`);
`emptyData` covers a missing key or empty string (the server storage
`getItem` substitutes the literal `[]` for those), `blankData` a
whitespace-only string, and `invalidData` a string `JSON.parse`
rejects. -/
inductive StoredData where
  | emptyData : StoredData
  | blankData : StoredData
  | invalidData : StoredData
  | validJson : List UserRec → StoredData
  deriving DecidableEq, Repr

/-- The module-level mutable state of `db.js`: the storage cell, the
read cache `userCache` and its timestamp `lastCacheTime` (milliseconds,
compared against `CACHE_TTL = 60000`). -/
structure DbState where
  storage : StoredData
  userCache : Option (List UserRec)
  lastCacheTime : Nat
  deriving DecidableEq, Repr

/-- Cache window from db.js line 49. -/
def CACHE_TTL : Nat := 60000

/-- `readDb` (db.js lines 92-119).  Returns the user list together with
the updated module state.  A fresh cache is served directly; an empty or
blank stored value resets the cache to `[]`; a stored value that fails
`JSON.parse` is caught and `[]` is returned without touching the cache;
otherwise the parsed array is returned and cached. -/
def readDb (skipCache : Bool) (now : Nat) (st : DbState) :
    List UserRec × DbState :=
  if !skipCache && st.userCache.isSome && decide (now - st.lastCacheTime < CACHE_TTL) then
    (st.userCache.getD [], st)
  else
    match st.storage with
    | .emptyData =>
        ([], { st with userCache := some [], lastCacheTime := now })
    | .blankData =>
        ([], { st with userCache := some [], lastCacheTime := now })
    | .invalidData => ([], st)
    | .validJson users =>
        (users, { st with userCache := some users, lastCacheTime := now })

/-- `writeDb` (db.js lines 126-145): store the serialized array and
refresh the cache.  The server storage `setItem` never throws. -/
def writeDb (data : List UserRec) (now : Nat) (st : DbState) : DbState :=
  { st with storage := .validJson data, userCache := some data,
            lastCacheTime := now }

/-! ## Email validation (db.js lines 152-176). -/

/-- Character class `[a-zA-Z0-9._%+-]` of the local part. -/
def isLocalChar (c : Char) : Bool :=
  c.isAlpha || c.isDigit || c = '.' || c = '_' || c = '%' || c = '+' || c = '-'

/-- Character class `[a-zA-Z0-9.-]` of the domain part. -/
def isDomainChar (c : Char) : Bool :=
  c.isAlpha || c.isDigit || c = '.' || c = '-'

/-- Test of the anchored pattern `[a-zA-Z0-9.-]+\.[a-zA-Z]{2,}` against
the part after the `@`: the split at the last dot must leave a nonempty
class-2 prefix and an alphabetic tail of length at least two.  Because
the tail of any successful regex split is all-alphabetic (hence
dot-free), that split is necessarily at the last dot, so this is exactly
the regex semantics. -/
def domainTest (d : String) : Bool :=
  let segs := d.data.splitOn '.'
  match segs.reverse with
  | [] => false
  | [_] => false
  | tld :: front =>
      let before := List.intercalate ['.'] front.reverse
      decide (before ≠ []) && before.all isDomainChar &&
        decide (2 ≤ tld.length) && tld.all Char.isAlpha

/-- `emailRegex.test` for `/^[a-zA-Z0-9._%+-]+@[a-zA-Z0-9.-]+\.[a-zA-Z]{2,}$/`
(db.js line 162).  Neither character class contains `@`, so a match has
exactly one `@`; splitting there is exact. -/
def emailRegexTest (s : String) : Bool :=
  match s.data.splitOn '@' with
  | [l, d] => decide (l ≠ []) && l.all isLocalChar && domainTest (String.mk d)
  | _ => false

/-- Input of `createUser`; an absent JavaScript field is the empty
string (both are falsy in the guards the code uses). -/
structure RegData where
  name : String
  email : String
  password : String
  deriving DecidableEq, Repr

/-- `validateUserData` (db.js lines 152-176): result flag plus the
message the code would throw. -/
def validateUserData (d : RegData) : Bool × String :=
  if d.email = "" then (false, "Email harus diisi")
  else if !emailRegexTest d.email then (false, "Format email tidak valid")
  else if d.name = "" || jsTrim d.name = "" then (false, "Nama harus diisi")
  else if d.password ≠ "" && decide (d.password.length < 6) then
    (false, "Password minimal 6 karakter")
  else (true, "Valid")

/-! ## Read operations of `src/lib/db.js`. -/

/-- `getUserByEmail` (db.js lines 264-277): normalize the argument, read
through the cache, and return the FIRST stored record whose lowercased
email matches — without sanitizing it. -/
def getUserByEmail (email : String) (now : Nat) (st : DbState) :
    Option UserRec × DbState :=
  if email = "" then (none, st)
  else
    let r := readDb false now st
    (r.1.find? (fun u => decide (jsToLower u.email = jsToLower (jsTrim email))),
     r.2)

/-- `getUserById` (db.js lines 284-299): find by id and return the
sanitized record. -/
def getUserById (id : String) (now : Nat) (st : DbState) :
    Option UserRec × DbState :=
  if id = "" then (none, st)
  else
    let r := readDb false now st
    match r.1.find? (fun u => decide (u.id = id)) with
    | none => (none, r.2)
    | some u => (some (sanitizeUser u), r.2)

/-- `getUsers` (db.js lines 248-257): every record, sanitized. -/
def getUsers (now : Nat) (st : DbState) : List UserRec × DbState :=
  let r := readDb false now st
  (r.1.map sanitizeUser, r.2)

/-- `createUser` (db.js lines 306-364).  `newId` stands for the
generated `user_${Date.now()}_${random}` id and `nowIso` for
`new Date().toISOString()`.  Thrown errors are the `Except.error`
messages of the source. -/
def createUser (d : RegData) (newId nowIso : String) (now : Nat)
    (st : DbState) : Except String (UserRec × DbState) :=
  let v := validateUserData d
  if !v.1 then .error v.2
  else if d.password = "" then .error "Password harus diisi"
  else
    let users := (readDb true now st).1
    let normalizedEmail := jsToLower (jsTrim d.email)
    if users.any (fun u => decide (jsToLower u.email = normalizedEmail)) then
      .error "Email sudah terdaftar"
    else
      let newUser : UserRec :=
        { id := newId, name := jsTrim d.name, email := normalizedEmail,
          password := some (hashPassword d.password), status := "active",
          createdAt := nowIso, updatedAt := nowIso,
          lastLoginAt := none, loginCount := none }
      .ok (sanitizeUser newUser, writeDb (users ++ [newUser]) now st)

/-- `verifyCredentials` (db.js lines 421-473).  All exceptions in the
source are caught and turned into `null`, so the embedding is total: it
returns the sanitized user (or `none`) and the updated module state.
The stored-hash comparison is `verifyPassword` against the record's
`password` property, `false` when that property is absent. -/
def verifyCredentials (email password : String) (now : Nat)
    (nowIso : String) (st : DbState) : Option UserRec × DbState :=
  if email = "" || password = "" then (none, st)
  else
    let g := getUserByEmail (jsToLower (jsTrim email)) now st
    match g.1 with
    | none => (none, g.2)
    | some user =>
      if user.status = "disabled" || user.status = "suspended" then
        (none, g.2)
      else if !(match user.password with
                | some h => verifyPassword password h
                | none => false) then
        (none, g.2)
      else
        let r := readDb true now g.2
        match r.1.findIdx? (fun v => decide (v.id = user.id)) with
        | none => (some (sanitizeUser user), r.2)
        | some i =>
            let old := r.1.getD i default
            let users3 := r.1.set i
              { old with lastLoginAt := some nowIso,
                         loginCount := some (old.loginCount.getD 0 + 1) }
            (some (sanitizeUser user), writeDb users3 now r.2)

/-! ## Session tokens.

The routes sign and verify compact JWS tokens with the `jose` library
(HS256).  A token is modelled as its claim set together with the secret
that signed it; signature verification succeeds exactly when the
verifying secret equals the signing secret — the standard abstraction of
an unforgeable MAC.  Times are seconds since the epoch, as in the `iat`
and `exp` claims. -/

/-- Claim set `{id, email, name, iat, exp}` the login routes sign. -/
structure Claims where
  id : String
  email : String
  name : String
  iat : Nat
  exp : Option Nat
  deriving DecidableEq, Repr

/-- A signed token: claims plus the signing secret. -/
structure Jwt where
  claims : Claims
  secret : String
  deriving DecidableEq, Repr

/-- Verification outcomes `jose.jwtVerify` distinguishes
(`ERR_JWS_SIGNATURE_VERIFICATION_FAILED` and `ERR_JWT_EXPIRED`). -/
inductive JoseError where
  | signatureFailed : JoseError
  | expired : JoseError
  deriving DecidableEq, Repr

/-- `jwtVerify` checks the signature first, then fails with `expired`
when the `exp` claim is at or before the current time, and otherwise
returns the claims. -/
def jwtVerify (t : Jwt) (secret : String) (now : Nat) :
    Except JoseError Claims :=
  if t.secret ≠ secret then .error .signatureFailed
  else
    match t.claims.exp with
    | none => .ok t.claims
    | some e => if e ≤ now then .error .expired else .ok t.claims

/-- Token a login route issues for `user`:
`SignJWT({id, email, name}).setIssuedAt().setExpirationTime(ttl)`. -/
def signLoginToken (u : UserRec) (secret : String) (now ttlSecs : Nat) : Jwt :=
  ⟨⟨u.id, u.email, u.name, now, some (now + ttlSecs)⟩, secret⟩

/-- Response of a login route: HTTP status, body token and the max-age
of the `auth-token` cookie when one is set. -/
structure LoginResponse where
  status : Nat
  token : Option Jwt
  cookieMaxAge : Option Nat
  deriving DecidableEq, Repr

/-- The login `POST` handler of `src/unnamed/part_002`: field and
email-format validation, credential check on the lowercased email, then
a token whose ttl is 30 days with `remember` and 1 day without, with the
`auth-token` cookie max-age set to the same number of seconds. -/
def POST_login_part002 (email password : String) (remember : Bool)
    (secret : String) (now : Nat) (nowIso : String) (st : DbState) :
    LoginResponse × DbState :=
  if email = "" || password = "" then (⟨400, none, none⟩, st)
  else if !emailRegexTest email then (⟨400, none, none⟩, st)
  else
    let v := verifyCredentials (jsToLower email) password now nowIso st
    match v.1 with
    | none => (⟨401, none, none⟩, v.2)
    | some user =>
        let cookieMaxAge := if remember then 60 * 60 * 24 * 30 else 60 * 60 * 24
        let ttlSecs := if remember then 60 * 60 * 24 * 30 else 60 * 60 * 24
        let token := signLoginToken user secret now ttlSecs
        (⟨200, some token, some cookieMaxAge⟩, v.2)

/-- The login `POST` handler of `src/app/api/auth/login/route.js`: no
email-format check, no `remember` handling — the token ttl and the
cookie max-age are always 7 days. -/
def POST_login_app (email password : String) (secret : String) (now : Nat)
    (nowIso : String) (st : DbState) : LoginResponse × DbState :=
  if email = "" || password = "" then (⟨400, none, none⟩, st)
  else
    let v := verifyCredentials email password now nowIso st
    match v.1 with
    | none => (⟨401, none, none⟩, v.2)
    | some user =>
        let token := signLoginToken user secret now (60 * 60 * 24 * 7)
        (⟨200, some token, some (60 * 60 * 24 * 7)⟩, v.2)

/-! ## The `/api/auth/me` route (`src/app/api/auth/me/route.js`). -/

/-- Raw token material of a request, as strings: the `auth-token` cookie
value, the `Authorization` header and the `token` query parameter
(`none` = absent). -/
structure MeRequest where
  cookieToken : Option String
  authHeader : Option String
  queryToken : Option String
  deriving DecidableEq, Repr

/-- JavaScript truthiness of an optional string: present and nonempty. -/
def truthy : Option String → Bool
  | some s => decide (s ≠ "")
  | none => false

/-- Prefix test `h.startsWith("Bearer ")`. -/
def startsWithBearer (h : String) : Bool :=
  "Bearer ".data.isPrefixOf h.data

/-- `h.substring(7)`. -/
def dropBearer (h : String) : String :=
  String.mk (h.data.drop 7)

/-- `getAuthToken` (me/route.js lines 41-64): cookie first when its
value is truthy, then the `Authorization` header when it starts with
`Bearer `, then the `token` query parameter when truthy. -/
def getAuthToken (r : MeRequest) : Option String :=
  if truthy r.cookieToken then r.cookieToken
  else if (match r.authHeader with
           | some h => startsWithBearer h
           | none => false) then
    (r.authHeader.map dropBearer)
  else if truthy r.queryToken then r.queryToken
  else none

/-- Body user object of a successful `/api/auth/me` response: the
`{id, name, email}` projection the route assembles (the optional
`lastLogin`/`avatar`/`role` spreads have no counterpart in the stored
record shape of db.js). -/
structure MeUser where
  id : String
  name : String
  email : String
  deriving DecidableEq, Repr

/-- Response of the `me` route: status, machine-readable `code`, body
user, `tokenRefreshed` flag, and the `auth-token` cookie (token and
max-age) when one is set. -/
structure MeResponse where
  status : Nat
  code : Option String
  success : Bool
  user : Option MeUser
  tokenRefreshed : Bool
  setCookie : Option (Jwt × Nat)
  deriving DecidableEq, Repr

/-- `refreshToken` (me/route.js lines 228-240): a fresh 7-day token for
the user record. -/
def refreshToken (u : UserRec) (secret : String) (now : Nat) : Jwt :=
  ⟨⟨u.id, u.email, u.name, now, some (now + 60 * 60 * 24 * 7)⟩, secret⟩

/-- Refresh window of the server check (me/route.js line 155):
`currentTime >= payload.exp - 15 * 60`, in signed arithmetic. -/
def needsRefresh (exp : Option Nat) (now : Nat) : Bool :=
  match exp with
  | some e => decide (e ≠ 0) && decide ((e : Int) - 15 * 60 ≤ (now : Int))
  | none => false

/-- The `GET` handler of `/api/auth/me` (lines 66-221), taking the token
extracted by `getAuthToken` (already decoded; `none` covers both a
missing token and the empty string, which the `!token` guard treats
alike).  The handler verifies, loads the user by the token's `id` claim,
rejects inactive accounts with 403, refreshes the token when it is
within 15 minutes of expiry, and reports `tokenRefreshed`. -/
def GET_me (tok : Option Jwt) (secret : String) (now : Nat) (st : DbState) :
    MeResponse × DbState :=
  match tok with
  | none => (⟨401, some "no_token", false, none, false, none⟩, st)
  | some t =>
    match jwtVerify t secret now with
    | .error _ => (⟨401, some "token_invalid", false, none, false, none⟩, st)
    | .ok payload =>
      let g := getUserById payload.id now st
      match g.1 with
      | none => (⟨404, some "user_not_found", false, none, false, none⟩, g.2)
      | some user =>
        if user.status = "disabled" || user.status = "suspended" then
          (⟨403, some "account_inactive", false, none, false, none⟩, g.2)
        else if needsRefresh payload.exp now then
          let nt := refreshToken user secret now
          (⟨200, none, true, some ⟨user.id, user.name, user.email⟩, true,
            some (nt, 60 * 60 * 24 * 7)⟩, g.2)
        else
          (⟨200, none, true, some ⟨user.id, user.name, user.email⟩, false,
            none⟩, g.2)

/-! ## The client auth facade (`src/unnamed/part_001`). -/

/-- Observable steps of one `authFetch` call: the initial request with
the `Authorization` bearer value its headers carry, the forced
`checkAuthStatus(true)` call, and the retry with the bearer value of its
freshly built headers. -/
inductive AuthEvent where
  | request : Option String → AuthEvent
  | forcedCheck : AuthEvent
  | retried : Option String → AuthEvent
  deriving DecidableEq, Repr

/-- `createHeaders` (part_001 lines 32-47) adds an `Authorization`
bearer exactly when the context token is truthy; this is that bearer
value. -/
def bearerOf (tok : Option String) : Option String :=
  match tok with
  | some t => if t ≠ "" then some t else none
  | none => none

/-- `authFetch` (part_001 lines 499-535).  The network and the status
check are oracles: `firstStatus` is the HTTP status of the initial
request, `checkOk` the boolean `checkAuthStatus(true)` resolves to,
`tokAfter` the context token after that check, and `retryStatus` the
status of the retried request.  The result is the response status the
caller sees (or the thrown session-expired message) together with the
event trace. -/
def authFetch (tokBefore : Option String) (firstStatus : Nat)
    (checkOk : Bool) (tokAfter : Option String) (retryStatus : Nat) :
    Except String Nat × List AuthEvent :=
  let ev1 : List AuthEvent := [.request (bearerOf tokBefore)]
  if firstStatus = 401 || firstStatus = 403 then
    if !checkOk then
      (.error "Sesi Anda berakhir. Silakan login kembali.",
       ev1 ++ [.forcedCheck])
    else
      (.ok retryStatus, ev1 ++ [.forcedCheck, .retried (bearerOf tokAfter)])
  else
    (.ok firstStatus, ev1)

/-! ## Fixtures used by concrete witnesses and counterexamples.
The hash literals are the digests the embedded hashers produce
(`hashPassword "password123" = "-607b033e"`). -/

/-- The demo record `seedDemoUser` creates, with the digest of
`password123` under the db.js hasher. -/
def demoUser : UserRec :=
  { id := "user_demo_1", name := "Demo User", email := "demo@example.com",
    password := some "-607b033e", status := "active",
    createdAt := "2025-01-01", updatedAt := "2025-01-01",
    lastLoginAt := none, loginCount := none }

/-- A store holding exactly the demo user, with a cold cache. -/
def dbDemo : DbState := ⟨.validJson [demoUser], none, 0⟩

/-- A store whose backing value `JSON.parse` rejects, with a cold
cache. -/
def dbCorrupt : DbState := ⟨.invalidData, none, 0⟩

/-- An empty store with a cold cache. -/
def dbEmpty : DbState := ⟨.emptyData, none, 0⟩

/-- The record created by registering
`{name: Ana, email: Ana@X.com, password: secret1}` with generated id
`id1` at time `t0` (digest of `secret1` under the db.js hasher). -/
def anaUser : UserRec :=
  { id := "id1", name := "Ana", email := "ana@x.com",
    password := some "50803b38", status := "active",
    createdAt := "t0", updatedAt := "t0",
    lastLoginAt := none, loginCount := none }

/-- The store state after that registration on an empty store. -/
def anaDb : DbState := ⟨.validJson [anaUser], some [anaUser], 0⟩

/-! ## Helper lemmas. -/

theorem char_toNat_ofNat_lt (n : Nat) (h : n < 55296) :
    (Char.ofNat n).toNat = n := by
  have hv : n.isValidChar := Or.inl h
  simp [Char.ofNat, hv, Char.ofNatAux, Char.toNat, UInt32.toNat,
    BitVec.toNat_ofNatLt]

theorem jsLowerChar_idem (c : Char) :
    jsLowerChar (jsLowerChar c) = jsLowerChar c := by
  unfold jsLowerChar
  by_cases h : 65 ≤ c.toNat ∧ c.toNat ≤ 90
  · rw [if_pos h]
    have ht : (Char.ofNat (c.toNat + 32)).toNat = c.toNat + 32 :=
      char_toNat_ofNat_lt _ (by omega)
    rw [if_neg (by omega)]
  · rw [if_neg h, if_neg h]

theorem jsToLower_idem (s : String) :
    jsToLower (jsToLower s) = jsToLower s := by
  unfold jsToLower
  simp [List.map_map, Function.comp_def, jsLowerChar_idem]

theorem readDb_after_write (data : List UserRec) (now now2 : Nat)
    (st : DbState) (skip : Bool) :
    (readDb skip now2 (writeDb data now st)).1 = data := by
  unfold readDb writeDb
  split <;> simp

/-! ## Claim theorems. -/

/-- C1: for every email and password, `verifyCredentials` returns `none`
— the same value in all three cases, and no raised error since the
embedding of the function is total — when no record with the normalized
email exists, when the matching record's status is disabled or
suspended, and when the password does not verify against the stored
hash. -/
theorem C1_verifyCredentials_null (email password : String) (now : Nat)
    (nowIso : String) (st : DbState)
    (h : (getUserByEmail (jsToLower (jsTrim email)) now st).1 = none
       ∨ (∃ u, (getUserByEmail (jsToLower (jsTrim email)) now st).1 = some u
            ∧ (u.status = "disabled" ∨ u.status = "suspended"))
       ∨ (∃ u, (getUserByEmail (jsToLower (jsTrim email)) now st).1 = some u
            ∧ (match u.password with
               | some hp => verifyPassword password hp
               | none => false) = false)) :
    (verifyCredentials email password now nowIso st).1 = none := by
  by_cases hg : email = "" ∨ password = ""
  · unfold verifyCredentials
    rcases hg with hg | hg <;> simp [hg]
  · push_neg at hg
    unfold verifyCredentials
    rw [if_neg (by simp [hg.1, hg.2])]
    rcases h with h | ⟨u, hu, hs⟩ | ⟨u, hu, hp⟩
    · simp only [h]
    · simp only [hu]
      rcases hs with hs | hs <;> simp [hs]
    · simp only [hu]
      by_cases hstat : u.status = "disabled" ∨ u.status = "suspended"
      · rcases hstat with hs | hs <;> simp [hs]
      · push_neg at hstat
        rw [if_neg (by simp [hstat.1, hstat.2]), if_pos (by simp [hp])]

/-- C1 witness: on the demo store, a wrong password yields `none`. -/
theorem C1_witness :
    (∃ u, (getUserByEmail (jsToLower (jsTrim "demo@example.com")) 0 dbDemo).1
            = some u
        ∧ (match u.password with
           | some hp => verifyPassword "wrongpass" hp
           | none => false) = false)
    ∧ (verifyCredentials "demo@example.com" "wrongpass" 0 "t" dbDemo).1
        = none := by
  refine ⟨⟨demoUser, by decide, by decide⟩, ?_⟩
  exact C1_verifyCredentials_null _ _ _ _ _
    (Or.inr (Or.inr ⟨demoUser, by decide, by decide⟩))

/-- C4: evaluation of both password hashers of the repository at the
failing input `secret1`.  Each hasher uses a fixed salt (the constant
`vercel-edge-runtime-salt-2025` in db.js, the year-derived
`vercel-edge-2025` in ChatInterface.jsx), so repeated `hash` calls
return this one digest rather than two different salted digests;
`verify` accepts the password against that single digest. -/
theorem C4_hashers_fixed_digest :
    hashPassword "secret1" = "50803b38"
    ∧ verifyPassword "secret1" "50803b38" = true
    ∧ hashPasswordCI 2025 "secret1"
        = "3139373031373739323176657263656c2d656467652d32303235"
    ∧ verifyPasswordCI 2025 "secret1"
        "3139373031373739323176657263656c2d656467652d32303235" = true := by
  refine ⟨by decide, by decide, by decide, by decide⟩

/-- C5: token verification fails with the invalid-signature error
whenever the token was signed with a secret other than the verifying
secret, fails with the expired error when the current time is at or past
the `exp` claim, otherwise returns the claims; and a token issued with a
1-day ttl verifies successfully at the instant of issuance. -/
theorem C5_jwt_verification (t : Jwt) (secret : String) (now : Nat)
    (u : UserRec) :
    (t.secret ≠ secret →
        jwtVerify t secret now = .error .signatureFailed)
    ∧ (t.secret = secret → ∀ e, t.claims.exp = some e → e ≤ now →
        jwtVerify t secret now = .error .expired)
    ∧ (t.secret = secret → (∀ e, t.claims.exp = some e → now < e) →
        jwtVerify t secret now = .ok t.claims)
    ∧ jwtVerify (signLoginToken u secret now (60 * 60 * 24)) secret now
        = .ok ⟨u.id, u.email, u.name, now, some (now + 60 * 60 * 24)⟩ := by
  refine ⟨fun hs => by simp [jwtVerify, hs], ?_, ?_, ?_⟩
  · intro hs e he hle
    simp [jwtVerify, hs, he, hle]
  · intro hs hlive
    unfold jwtVerify
    rw [if_neg (by simp [hs])]
    cases he : t.claims.exp with
    | none => rfl
    | some e =>
      have hl := hlive e he
      simp [show ¬ (e ≤ now) by omega]
  · unfold jwtVerify signLoginToken
    simp

/-- C5 witness: concrete tokens exercising all four conjuncts. -/
theorem C5_witness :
    jwtVerify ⟨⟨"u1", "a@b.cd", "A", 0, some 100⟩, "other"⟩ "s" 0
        = .error .signatureFailed
    ∧ jwtVerify ⟨⟨"u1", "a@b.cd", "A", 0, some 100⟩, "s"⟩ "s" 100
        = .error .expired
    ∧ jwtVerify ⟨⟨"u1", "a@b.cd", "A", 0, some 100⟩, "s"⟩ "s" 99
        = .ok ⟨"u1", "a@b.cd", "A", 0, some 100⟩
    ∧ jwtVerify (signLoginToken demoUser "s" 500 (60 * 60 * 24)) "s" 500
        = .ok ⟨demoUser.id, demoUser.email, demoUser.name, 500,
               some (500 + 60 * 60 * 24)⟩ := by
  refine ⟨?_, ?_, ?_, ?_⟩
  · exact (C5_jwt_verification _ "s" 0 demoUser).1 (by decide)
  · exact (C5_jwt_verification _ "s" 100 demoUser).2.1 (by decide) 100
      (by decide) (by decide)
  · exact (C5_jwt_verification _ "s" 99 demoUser).2.2.1 (by decide)
      (by simp)
  · exact (C5_jwt_verification ⟨⟨"x", "x", "x", 0, none⟩, "s"⟩ "s" 500
      demoUser).2.2.2

/-- C9: when the first request of `authFetch` comes back 401 or 403,
exactly one forced status check runs; if it confirms authentication the
original request is retried exactly once with freshly built headers
(carrying the post-check token) and the retry's response is returned
even when it is again 401/403; if the check fails, `authFetch` throws
the session-expired error without retrying. -/
theorem C9_authFetch_retry (tokBefore : Option String) (firstStatus : Nat)
    (checkOk : Bool) (tokAfter : Option String) (retryStatus : Nat)
    (h : firstStatus = 401 ∨ firstStatus = 403) :
    (authFetch tokBefore firstStatus checkOk tokAfter retryStatus).2.count
        .forcedCheck = 1
    ∧ (checkOk = true →
        authFetch tokBefore firstStatus checkOk tokAfter retryStatus =
          (.ok retryStatus,
           [.request (bearerOf tokBefore), .forcedCheck,
            .retried (bearerOf tokAfter)]))
    ∧ (checkOk = false →
        authFetch tokBefore firstStatus checkOk tokAfter retryStatus =
          (.error "Sesi Anda berakhir. Silakan login kembali.",
           [.request (bearerOf tokBefore), .forcedCheck])) := by
  have hcond : (firstStatus = 401 || firstStatus = 403) = true := by
    rcases h with h | h <;> simp [h]
  unfold authFetch
  rcases hck : checkOk with _ | _ <;>
    simp [hcond, List.count_cons, List.count_nil]

/-- C9 witness: a 401 first response with a succeeding check retries
once and returns the retry's 403. -/
theorem C9_witness :
    (authFetch (some "tok1") 401 true (some "tok2") 403).2.count
        .forcedCheck = 1
    ∧ authFetch (some "tok1") 401 true (some "tok2") 403 =
        (.ok 403, [.request (some "tok1"), .forcedCheck,
                   .retried (some "tok2")]) := by
  have h := C9_authFetch_retry (some "tok1") 401 true (some "tok2") 403
    (Or.inl rfl)
  exact ⟨h.1, h.2.1 rfl⟩

/-- C10 counterexample: on a backing value that `JSON.parse` rejects,
`readDb` does return the empty list, but it does not cache it — the
cache stays `none`, refuting the parenthetical of the claim. -/
theorem C10_counterexample :
    (readDb false 0 dbCorrupt).1 = []
    ∧ (readDb false 0 dbCorrupt).2.userCache ≠ some [] := by
  refine ⟨by decide, by decide⟩

/-- C10 (amended): when the cache cannot serve the read (absent or
stale) and the stored value is absent/empty, blank, or not valid JSON,
`readDb` returns the empty user list without raising (the embedding is
total); it caches the empty list in the absent/blank cases and leaves
the module state untouched on a parse failure; `getUserByEmail` and
`getUserById` on such a store behave exactly as on an empty store and
return `none`. -/
theorem C10_readDb_corrupt_spec (st : DbState) (now : Nat)
    (e id : String)
    (hmiss : st.userCache = none ∨ CACHE_TTL ≤ now - st.lastCacheTime)
    (hbad : st.storage = .emptyData ∨ st.storage = .blankData
          ∨ st.storage = .invalidData) :
    (readDb false now st).1 = []
    ∧ ((st.storage = .emptyData ∨ st.storage = .blankData) →
        (readDb false now st).2.userCache = some [])
    ∧ (st.storage = .invalidData → (readDb false now st).2 = st)
    ∧ (getUserByEmail e now st).1 = none
    ∧ (getUserById id now st).1 = none := by
  have hguard : (!false && st.userCache.isSome
      && decide (now - st.lastCacheTime < CACHE_TTL)) = false := by
    rcases hmiss with hm | hm
    · simp [hm]
    · have hd : decide (now - st.lastCacheTime < CACHE_TTL) = false :=
        decide_eq_false (by omega)
      rw [hd]
      simp
  have hread : readDb false now st
      = ([], if st.storage = .invalidData then st
             else { st with userCache := some [], lastCacheTime := now }) := by
    unfold readDb
    rw [if_neg (by rw [hguard]; exact Bool.false_ne_true)]
    rcases hbad with hb | hb | hb <;> simp [hb]
  refine ⟨by simp [hread], ?_, ?_, ?_, ?_⟩
  · intro hb
    have : st.storage ≠ .invalidData := by
      rcases hb with hb | hb <;> simp [hb]
    simp [hread, this]
  · intro hb
    simp [hread, hb]
  · unfold getUserByEmail
    split
    · rfl
    · simp [hread]
  · unfold getUserById
    split
    · rfl
    · simp [hread]

/-- C10 witness: a blank store with a cold cache returns the empty list,
caches it, and both readers return `none`. -/
theorem C10_witness :
    (readDb false 5 ⟨.blankData, none, 0⟩).1 = []
    ∧ (readDb false 5 ⟨.blankData, none, 0⟩).2.userCache = some []
    ∧ (getUserByEmail "demo@example.com" 5 ⟨.blankData, none, 0⟩).1 = none
    ∧ (getUserById "user_demo_1" 5 ⟨.blankData, none, 0⟩).1 = none := by
  have h := C10_readDb_corrupt_spec ⟨.blankData, none, 0⟩ 5
    "demo@example.com" "user_demo_1" (Or.inl rfl) (Or.inr (Or.inl rfl))
  exact ⟨h.1, h.2.1 (Or.inr rfl), h.2.2.2.1, h.2.2.2.2⟩

/-- C7: the token used by `/api/auth/me` is selected with first match
winning — the `auth-token` cookie when it carries a (nonempty) value,
otherwise the `Authorization` header when it starts with `Bearer `,
otherwise the `token` query parameter — and with no token present the
request fails with 401 and code `no_token`. -/
theorem C7_token_precedence (r : MeRequest) (secret : String) (now : Nat)
    (st : DbState) :
    (∀ t, r.cookieToken = some t → t ≠ "" → getAuthToken r = some t)
    ∧ (truthy r.cookieToken = false →
        ∀ h, r.authHeader = some h → startsWithBearer h = true →
          getAuthToken r = some (dropBearer h))
    ∧ (truthy r.cookieToken = false →
        (match r.authHeader with
         | some h => startsWithBearer h
         | none => false) = false →
        ∀ q, r.queryToken = some q → q ≠ "" → getAuthToken r = some q)
    ∧ (r.cookieToken = none → r.authHeader = none → r.queryToken = none →
        getAuthToken r = none)
    ∧ (GET_me none secret now st).1
        = ⟨401, some "no_token", false, none, false, none⟩ := by
  refine ⟨?_, ?_, ?_, ?_, rfl⟩
  · intro t hc ht
    unfold getAuthToken
    rw [if_pos (by simp [truthy, hc, ht])]
    exact hc
  · intro hc h hh hb
    unfold getAuthToken
    rw [if_neg (by simp [hc]), if_pos (by simp [hh, hb]), hh]
    rfl
  · intro hc hb q hq hqe
    unfold getAuthToken
    rw [if_neg (by simp [hc]), if_neg (by simp [hb]),
      if_pos (by simp [truthy, hq, hqe])]
    exact hq
  · intro hc hh hq
    unfold getAuthToken
    simp [hc, hh, hq, truthy]

/-- C7 witness: the precedence on concrete requests, and the 401
`no_token` response with nothing present. -/
theorem C7_witness :
    getAuthToken ⟨some "ct", some "Bearer hx", some "qt"⟩ = some "ct"
    ∧ getAuthToken ⟨none, some "Bearer hx", some "qt"⟩ = some "hx"
    ∧ getAuthToken ⟨some "", none, some "qt"⟩ = some "qt"
    ∧ getAuthToken ⟨none, none, none⟩ = none
    ∧ (GET_me none "s" 0 dbDemo).1
        = ⟨401, some "no_token", false, none, false, none⟩ := by
  refine ⟨?_, ?_, ?_, ?_, ?_⟩
  · exact (C7_token_precedence ⟨some "ct", some "Bearer hx", some "qt"⟩
      "s" 0 dbDemo).1 "ct" rfl (by decide)
  · have h := (C7_token_precedence ⟨none, some "Bearer hx", some "qt"⟩
      "s" 0 dbDemo).2.1 (by decide) "Bearer hx" rfl (by decide)
    simpa using h
  · exact (C7_token_precedence ⟨some "", none, some "qt"⟩
      "s" 0 dbDemo).2.2.1 (by decide) (by decide) "qt" rfl (by decide)
  · exact (C7_token_precedence ⟨none, none, none⟩
      "s" 0 dbDemo).2.2.2.1 rfl rfl rfl
  · exact (C7_token_precedence ⟨none, none, none⟩ "s" 0 dbDemo).2.2.2.2

/-- C2 counterexample: `getUserByEmail` returns the stored record
itself, password hash included — the claim that every read path is
sanitized fails on it. -/
theorem C2_counterexample :
    (getUserByEmail "demo@example.com" 0 dbDemo).1 = some demoUser
    ∧ demoUser.password = some "-607b033e" := by
  refine ⟨by decide, rfl⟩

/-- C2 (amended): `getUserById`, `getUsers` and `verifyCredentials`
return only sanitized records — no returned value carries a `password`
field — while `getUserByEmail` returns the raw stored record including
the hash (see the counterexample). -/
theorem C2_read_paths_sanitized (now : Nat) (st : DbState)
    (id email pw nowIso : String) :
    (∀ u, (getUserById id now st).1 = some u → u.password = none)
    ∧ (∀ u, u ∈ (getUsers now st).1 → u.password = none)
    ∧ (∀ u, (verifyCredentials email pw now nowIso st).1 = some u →
        u.password = none) := by
  refine ⟨?_, ?_, ?_⟩
  · intro u h
    simp only [getUserById] at h
    split at h
    · simp at h
    · split at h
      · simp at h
      · simp only [Prod.fst, Option.some.injEq] at h
        rw [← h]
        rfl
  · intro u h
    simp only [getUsers, List.mem_map] at h
    obtain ⟨v, _, hv⟩ := h
    rw [← hv]
    rfl
  · intro u h
    simp only [verifyCredentials] at h
    split at h
    · simp at h
    · split at h
      · simp at h
      · split at h
        · simp at h
        · split at h
          · simp at h
          · split at h <;>
            · simp only [Prod.fst, Option.some.injEq] at h
              rw [← h]
              rfl

/-- C2 witness: the sanitized read-back of the demo user by id. -/
theorem C2_witness :
    (getUserById "user_demo_1" 0 dbDemo).1 = some (sanitizeUser demoUser)
    ∧ (sanitizeUser demoUser).password = none := by
  refine ⟨by decide, ?_⟩
  exact (C2_read_paths_sanitized 0 dbDemo "user_demo_1" "x" "y" "z").1
    (sanitizeUser demoUser) (by decide)

/-- C6 counterexample: a successful login through
`src/app/api/auth/login/route.js` with no `remember` requested issues a
7-day token (iat 1000, exp 1000 + 604800) and a 7-day cookie — not the
1-day ttl the claim requires for a login without `remember`. -/
theorem C6_counterexample :
    (POST_login_app "demo@example.com" "password123" "s" 1000 "t"
        dbDemo).1
      = ⟨200, some ⟨⟨"user_demo_1", "demo@example.com", "Demo User", 1000,
                     some (1000 + 604800)⟩, "s"⟩, some 604800⟩
    ∧ (604800 : Nat) ≠ 60 * 60 * 24 := by
  refine ⟨by decide, by decide⟩

/-- C6 (amended): on every successful login, the `auth-token` cookie
max-age equals the issued token's ttl; in the part_002 route that ttl is
30 days with `remember` and 1 day without, while the
`src/app/api/auth/login` route always issues 7 days, whether or not
`remember` was requested (it reads no such field). -/
theorem C6_login_ttl (email pw : String) (remember : Bool)
    (secret : String) (now : Nat) (nowIso : String) (st : DbState) :
    (∀ t m,
      (POST_login_part002 email pw remember secret now nowIso st).1.token
          = some t →
      (POST_login_part002 email pw remember secret now nowIso
          st).1.cookieMaxAge = some m →
      t.claims.iat = now ∧ t.claims.exp = some (now + m)
        ∧ m = (if remember then 60 * 60 * 24 * 30 else 60 * 60 * 24))
    ∧ (∀ t m,
      (POST_login_app email pw secret now nowIso st).1.token = some t →
      (POST_login_app email pw secret now nowIso st).1.cookieMaxAge
          = some m →
      t.claims.iat = now ∧ t.claims.exp = some (now + m)
        ∧ m = 60 * 60 * 24 * 7) := by
  constructor
  · intro t m ht hm
    simp only [POST_login_part002] at ht hm
    by_cases h1 : (decide (email = "") || decide (pw = "")) = true
    · rw [if_pos h1] at ht
      exact absurd ht (by simp)
    · rw [if_neg h1] at ht hm
      by_cases h2 : (!emailRegexTest email) = true
      · rw [if_pos h2] at ht
        exact absurd ht (by simp)
      · rw [if_neg h2] at ht hm
        cases hv : (verifyCredentials (jsToLower email) pw now nowIso st).1 with
        | none =>
          rw [hv] at ht
          exact absurd ht (by simp)
        | some user =>
          rw [hv] at ht hm
          cases remember with
          | false =>
            simp only [Bool.false_eq_true, if_false, Prod.fst,
              Option.some.injEq] at ht hm
            rw [← ht, ← hm]
            simp [signLoginToken]
          | true =>
            simp only [if_true, Prod.fst, Option.some.injEq] at ht hm
            rw [← ht, ← hm]
            simp [signLoginToken]
  · intro t m ht hm
    simp only [POST_login_app] at ht hm
    by_cases h1 : (decide (email = "") || decide (pw = "")) = true
    · rw [if_pos h1] at ht
      exact absurd ht (by simp)
    · rw [if_neg h1] at ht hm
      cases hv : (verifyCredentials email pw now nowIso st).1 with
      | none =>
        rw [hv] at ht
        exact absurd ht (by simp)
      | some user =>
        rw [hv] at ht hm
        simp only [Prod.fst, Option.some.injEq] at ht hm
        rw [← ht, ← hm]
        simp [signLoginToken]

/-- C6 witness: a part_002 login without `remember` issues a 1-day token
whose cookie max-age equals the ttl. -/
theorem C6_witness :
    (POST_login_part002 "demo@example.com" "password123" false "s" 1000
        "t" dbDemo).1.token
      = some ⟨⟨"user_demo_1", "demo@example.com", "Demo User", 1000,
               some (1000 + 86400)⟩, "s"⟩
    ∧ (⟨⟨"user_demo_1", "demo@example.com", "Demo User", 1000,
          some (1000 + 86400)⟩, "s"⟩ : Jwt).claims.iat = 1000
    ∧ (⟨⟨"user_demo_1", "demo@example.com", "Demo User", 1000,
          some (1000 + 86400)⟩, "s"⟩ : Jwt).claims.exp
        = some (1000 + 86400)
    ∧ (86400 : Nat) = (if false then 60 * 60 * 24 * 30
                       else 60 * 60 * 24) := by
  have ht : (POST_login_part002 "demo@example.com" "password123" false "s"
      1000 "t" dbDemo).1.token
      = some ⟨⟨"user_demo_1", "demo@example.com", "Demo User", 1000,
               some (1000 + 86400)⟩, "s"⟩ := by decide
  have hm : (POST_login_part002 "demo@example.com" "password123" false "s"
      1000 "t" dbDemo).1.cookieMaxAge = some 86400 := by decide
  have h := (C6_login_ttl "demo@example.com" "password123" false "s" 1000
    "t" dbDemo).1 _ _ ht hm
  exact ⟨ht, h.1, by rw [h.2.1], by rw [← h.2.2]⟩

/-- C8: on a `/api/auth/me` request whose token verifies for an active
user, the server issues a fresh token — same subject (id, email, name of
the user record), `iat` the current time, `exp` seven days out — sets it
as the `auth-token` cookie and reports `tokenRefreshed` when `exp` is
within 15 minutes of now; otherwise it issues nothing and reports
`tokenRefreshed` false with no cookie. -/
theorem C8_me_refresh (t : Jwt) (secret : String) (now : Nat)
    (st : DbState) (u : UserRec) (e : Nat)
    (hsec : t.secret = secret)
    (he : t.claims.exp = some e)
    (hlive : now < e)
    (hu : (getUserById t.claims.id now st).1 = some u)
    (hs : u.status ≠ "disabled" ∧ u.status ≠ "suspended") :
    (((e : Int) - 15 * 60 ≤ (now : Int)) →
       (GET_me (some t) secret now st).1.tokenRefreshed = true
       ∧ (GET_me (some t) secret now st).1.setCookie
           = some (⟨⟨u.id, u.email, u.name, now,
                     some (now + 60 * 60 * 24 * 7)⟩, secret⟩,
                   60 * 60 * 24 * 7))
    ∧ (((now : Int) < (e : Int) - 15 * 60) →
       (GET_me (some t) secret now st).1.tokenRefreshed = false
       ∧ (GET_me (some t) secret now st).1.setCookie = none) := by
  have hverify : jwtVerify t secret now = .ok t.claims := by
    unfold jwtVerify
    rw [if_neg (by simp [hsec]), he]
    have hle : ¬ (e ≤ now) := by omega
    simp [hle]
  have hstat : (decide (u.status = "disabled")
      || decide (u.status = "suspended")) = false := by
    simp [hs.1, hs.2]
  constructor
  · intro hwin
    have hnr : needsRefresh t.claims.exp now = true := by
      unfold needsRefresh
      rw [he]
      simp only [Bool.and_eq_true, decide_eq_true_eq]
      omega
    simp only [GET_me, hverify, hu, hstat, Bool.false_eq_true, if_false,
      hnr, if_true]
    exact ⟨trivial, rfl⟩
  · intro hfar
    have hnr : needsRefresh t.claims.exp now = false := by
      unfold needsRefresh
      rw [he]
      simp only [Bool.and_eq_false_iff, decide_eq_false_iff_not]
      right
      omega
    simp only [GET_me, hverify, hu, hstat, Bool.false_eq_true, if_false,
      hnr]
    exact ⟨trivial, trivial⟩

/-- C8 witness: with the demo user, a token 10 minutes from expiry is
rotated (cookie set, `tokenRefreshed` true), and a token 16 minutes from
expiry is not. -/
theorem C8_witness :
    (GET_me (some ⟨⟨"user_demo_1", "demo@example.com", "Demo User",
        0, some 100600⟩, "s"⟩) "s" 100000 dbDemo).1.tokenRefreshed = true
    ∧ (GET_me (some ⟨⟨"user_demo_1", "demo@example.com", "Demo User",
        0, some 100600⟩, "s"⟩) "s" 100000 dbDemo).1.setCookie
      = some (⟨⟨"user_demo_1", "demo@example.com", "Demo User", 100000,
                some (100000 + 60 * 60 * 24 * 7)⟩, "s"⟩, 60 * 60 * 24 * 7)
    ∧ (GET_me (some ⟨⟨"user_demo_1", "demo@example.com", "Demo User",
        0, some 100960⟩, "s"⟩) "s" 100000 dbDemo).1.tokenRefreshed = false
    ∧ (GET_me (some ⟨⟨"user_demo_1", "demo@example.com", "Demo User",
        0, some 100960⟩, "s"⟩) "s" 100000 dbDemo).1.setCookie = none := by
  have h1 := (C8_me_refresh ⟨⟨"user_demo_1", "demo@example.com",
    "Demo User", 0, some 100600⟩, "s"⟩ "s" 100000 dbDemo
    (sanitizeUser demoUser) 100600 rfl rfl (by decide) (by decide)
    ⟨by decide, by decide⟩).1 (by decide)
  have h2 := (C8_me_refresh ⟨⟨"user_demo_1", "demo@example.com",
    "Demo User", 0, some 100960⟩, "s"⟩ "s" 100000 dbDemo
    (sanitizeUser demoUser) 100960 rfl rfl (by decide) (by decide)
    ⟨by decide, by decide⟩).2 (by decide)
  exact ⟨h1.1, by rw [h1.2]; rfl, h2.1, h2.2⟩

/-- C3: whenever `createUser` accepts a registration, the created
record's email is the trimmed, lowercased input email, and a subsequent
`getUserByEmail` with any casing of that email (any nonempty string
normalizing to it) on the resulting store returns that same record. -/
theorem C3_createUser_email (d : RegData) (newId nowIso : String)
    (now now2 : Nat) (st : DbState) (u : UserRec) (st2 : DbState)
    (h : createUser d newId nowIso now st = .ok (u, st2)) :
    u.email = jsToLower (jsTrim d.email)
    ∧ ∀ e2, e2 ≠ "" → jsToLower (jsTrim e2) = u.email →
        ∃ r, (getUserByEmail e2 now2 st2).1 = some r ∧ sanitizeUser r = u := by
  simp only [createUser] at h
  by_cases h1 : (!(validateUserData d).1) = true
  · rw [if_pos h1] at h
    exact absurd h (by simp)
  · rw [if_neg h1] at h
    by_cases h2 : d.password = ""
    · rw [if_pos h2] at h
      exact absurd h (by simp)
    · rw [if_neg h2] at h
      by_cases h3 : ((readDb true now st).1.any
          (fun v => decide (jsToLower v.email
            = jsToLower (jsTrim d.email)))) = true
      · rw [if_pos h3] at h
        exact absurd h (by simp)
      · rw [if_neg h3] at h
        simp only [Except.ok.injEq, Prod.mk.injEq] at h
        obtain ⟨hu, hst⟩ := h
        have hue : u.email = jsToLower (jsTrim d.email) := by
          rw [← hu]
          rfl
        refine ⟨hue, ?_⟩
        intro e2 he2 hlow
        have htarget : jsToLower (jsTrim e2) = jsToLower (jsTrim d.email) := by
          rw [hlow, hue]
        refine ⟨{ id := newId, name := jsTrim d.name,
                  email := jsToLower (jsTrim d.email),
                  password := some (hashPassword d.password),
                  status := "active", createdAt := nowIso,
                  updatedAt := nowIso, lastLoginAt := none,
                  loginCount := none }, ?_, by rw [← hu]⟩
        simp only [getUserByEmail]
        rw [if_neg he2, ← hst, Prod.fst, readDb_after_write, htarget,
          List.find?_append]
        have hnone : (readDb true now st).1.find?
            (fun v => decide (jsToLower v.email
              = jsToLower (jsTrim d.email))) = none := by
          rw [List.find?_eq_none]
          intro x hx
          simp only [decide_eq_true_eq]
          intro hcontra
          exact h3 (List.any_eq_true.mpr ⟨x, hx, by simp [hcontra]⟩)
        rw [hnone]
        simp [List.find?_cons, jsToLower_idem]

/-- C3 witness: registering `Ana@X.com` stores `ana@x.com`, and a later
lookup under the casing `ANA@X.COM` returns the created record. -/
theorem C3_witness :
    createUser ⟨"Ana", "Ana@X.com", "secret1"⟩ "id1" "t0" 0 dbEmpty
      = .ok (sanitizeUser anaUser, anaDb)
    ∧ (sanitizeUser anaUser).email = jsToLower (jsTrim "Ana@X.com")
    ∧ ∃ r, (getUserByEmail "ANA@X.COM" 30 anaDb).1 = some r
         ∧ sanitizeUser r = sanitizeUser anaUser := by
  have hc : createUser ⟨"Ana", "Ana@X.com", "secret1"⟩ "id1" "t0" 0 dbEmpty
      = .ok (sanitizeUser anaUser, anaDb) := by rfl
  have h := C3_createUser_email ⟨"Ana", "Ana@X.com", "secret1"⟩ "id1" "t0"
    0 30 dbEmpty (sanitizeUser anaUser) anaDb hc
  exact ⟨hc, h.1, h.2 "ANA@X.COM" (by decide) (by decide)⟩

end Aifix
